import Mathlib

/-!
Verification of the terraform-provider-mastodon repository: a shallow
embedding of the provider root configuration, the account data source,
the post resource lifecycle and the identity function, together with
theorems settling the specification claims.
-/

namespace TPMastodon

/-- Terraform framework string value (`types.String` in the source):
null, unknown, or a known string. -/
inductive TFString where
  | null
  | unknown
  | value (s : String)
deriving DecidableEq, Repr

/-- `types.String.IsNull()` -/
def TFString.isNull : TFString → Bool
  | .null => true
  | _ => false

/-- `types.String.IsUnknown()` -/
def TFString.isUnknown : TFString → Bool
  | .unknown => true
  | _ => false

/-- `types.String.ValueString()`: the known string, or "" when null or unknown. -/
def TFString.valueString : TFString → String
  | .value s => s
  | _ => ""

/-- Terraform framework bool value (`types.Bool` in the source). -/
inductive TFBool where
  | null
  | unknown
  | value (b : Bool)
deriving DecidableEq, Repr

/-- `types.Bool.IsNull()` -/
def TFBool.isNull : TFBool → Bool
  | .null => true
  | _ => false

/-- `types.Bool.ValueBool()`: the known bool, or false when null or unknown. -/
def TFBool.valueBool : TFBool → Bool
  | .value b => b
  | _ => false

/-- How Terraform renders a bool attribute as a string in test checks. -/
def TFBool.render : TFBool → String
  | .value true => "true"
  | .value false => "false"
  | .null => "null"
  | .unknown => "unknown"

/-- A framework diagnostic: optional attribute path (AddAttributeError
carries one, AddError does not), summary and detail. -/
structure Diagnostic where
  path : Option String
  summary : String
  detail : String
deriving DecidableEq, Repr

/-- The fields of a `mastodon.Account` record that this provider reads. -/
structure Account where
  id : String
  displayName : String
  note : String
  acct : String
  locked : Bool
  bot : Bool
deriving DecidableEq, Repr

/-- `IdentityFunction.Run`: sets the result to "@" + username + "@" + server. -/
def IdentityFunction.Run (username server : String) : String :=
  "@" ++ username ++ "@" ++ server

/-- Modelled from the spec: the sanitization policy
(`bluemonday.NewPolicy().Sanitize`, an external dependency not under
src/) is "an HTML-stripping transformation applied to remotely-sourced
text": every tag, i.e. every segment opened by a `<`, is removed and
the remaining text is kept. -/
def sanitizeChars : Bool → List Char → List Char
  | _, [] => []
  | false, c :: rest =>
      if c = '<' then sanitizeChars true rest else c :: sanitizeChars false rest
  | true, c :: rest =>
      if c = '>' then sanitizeChars false rest else sanitizeChars true rest

/-- The HTML-stripping sanitization applied in PostResource Create, Read
and Update (`p := bluemonday.NewPolicy(); p.Sanitize(post.Content)`). -/
def sanitize (s : String) : String :=
  ⟨sanitizeChars false s.data⟩

theorem sanitizeChars_no_lt (mode : Bool) (l : List Char) :
    '<' ∉ sanitizeChars mode l := by
  induction l generalizing mode with
  | nil => cases mode <;> simp [sanitizeChars]
  | cons c rest ih =>
    cases mode with
    | false =>
      by_cases h : c = '<'
      · simpa [sanitizeChars, h] using ih true
      · simp only [sanitizeChars, if_neg h, List.mem_cons]
        rintro (rfl | hm)
        · exact h rfl
        · exact ih false hm
    | true =>
      by_cases h : c = '>'
      · simpa [sanitizeChars, h] using ih false
      · simpa [sanitizeChars, h] using ih true

theorem sanitizeChars_id_of_no_lt (l : List Char) (h : '<' ∉ l) :
    sanitizeChars false l = l := by
  induction l with
  | nil => simp [sanitizeChars]
  | cons c rest ih =>
    have hc : c ≠ '<' := fun hcc => h (hcc ▸ List.mem_cons_self c rest)
    have hrest : '<' ∉ rest := fun hm => h (List.mem_cons_of_mem c hm)
    simp [sanitizeChars, hc, ih hrest]

theorem sanitize_idempotent (s : String) : sanitize (sanitize s) = sanitize s := by
  unfold sanitize
  exact congrArg String.mk
    (sanitizeChars_id_of_no_lt _ (sanitizeChars_no_lt false s.data))

/-- `MastodonProviderModel`: the provider configuration block. -/
structure MastodonProviderModel where
  host : TFString
  clientID : TFString
  clientSecret : TFString
  email : TFString
  password : TFString
  accessToken : TFString
deriving DecidableEq, Repr

/-- The values of the environment variables read by Configure
(`os.Getenv` returns "" for an unset variable). -/
structure ProviderEnv where
  host : String
  clientID : String
  clientSecret : String
  userEmail : String
  userPassword : String
  accessToken : String
deriving DecidableEq, Repr

/-- The Go pattern `x := os.Getenv(...); if !cfg.IsNull() { x = cfg.ValueString() }`:
configuration overrides the environment variable when non-null. -/
def resolveField (cfg : TFString) (env : String) : String :=
  if cfg.isNull then env else cfg.valueString

/-- The six resolved configuration values, in the order Configure computes them. -/
structure ResolvedConfig where
  host : String
  clientID : String
  clientSecret : String
  userEmail : String
  userPassword : String
  accessToken : String
deriving DecidableEq, Repr

/-- The resolution performed inline in `MastodonProvider.Configure`. -/
def resolvedModel (data : MastodonProviderModel) (env : ProviderEnv) : ResolvedConfig :=
  { host := resolveField data.host env.host
    clientID := resolveField data.clientID env.clientID
    clientSecret := resolveField data.clientSecret env.clientSecret
    userEmail := resolveField data.email env.userEmail
    userPassword := resolveField data.password env.userPassword
    accessToken := resolveField data.accessToken env.accessToken }

/-- Diagnostic added when the resolved host is empty.  Note the source
attributes it to path "user-access-token", not to "host". -/
def hostMissingDiag : Diagnostic :=
  { path := some "user-access-token"
    summary := "Missing Mastodon Credentials"
    detail := "The provider cannot create the Mastodon API client as the Host is not set." }

/-- Diagnostic added when the resolved client id is empty (path "user-access-token"). -/
def clientIDMissingDiag : Diagnostic :=
  { path := some "user-access-token"
    summary := "Missing Mastodon Credentials"
    detail := "The provider cannot create the Mastodon API client as the Client ID is not set." }

/-- Diagnostic added when the resolved client secret is empty (path "user-access-token"). -/
def clientSecretMissingDiag : Diagnostic :=
  { path := some "user-access-token"
    summary := "Missing Mastodon Credentials"
    detail := "The provider cannot create the Mastodon API client as the Client Secret is not set." }

/-- Diagnostic added when neither an access token nor a complete
email+password pair resolves. -/
def credentialsMissingDiag : Diagnostic :=
  { path := some "user-access-token"
    summary := "Missing Mastodon Credentials"
    detail := "The provider cannot create the Mastodon API client as neither the Access Token or the Username and Password fields are set." }

/-- Diagnostic added when a configuration value is unknown; `p` is the
attribute path used and `which` names the value in the summary and detail. -/
def unknownDiag (p which envVar : String) : Diagnostic :=
  { path := some p
    summary := "Unknown Mastodon " ++ which
    detail := "The provider cannot create the Mastodon API client as there is an unknown configuration value for the Mastodon " ++ which ++ ". Either target apply the source of the value first, set the value statically in the configuration, or use the " ++ envVar ++ " environment variable." }

/-- The diagnostics accumulated by the validation phase of
`MastodonProvider.Configure` (everything before `if resp.Diagnostics.HasError()`),
in source order: for each field an unknown-value check, then the resolution,
then for host / client id / client secret an empty-value check, and finally
the combined credential check. -/
def validationDiags (data : MastodonProviderModel) (env : ProviderEnv) : List Diagnostic :=
  let r := resolvedModel data env
  (if data.host.isUnknown then [unknownDiag "host" "API Host" "MASTODON_HOST"] else [])
  ++ (if r.host = "" then [hostMissingDiag] else [])
  ++ (if data.clientID.isUnknown then [unknownDiag "client-id" "Client ID" "MASTODON_CLIENT_ID"] else [])
  ++ (if r.clientID = "" then [clientIDMissingDiag] else [])
  ++ (if data.clientSecret.isUnknown then [unknownDiag "client-secret" "Client Secret" "MASTODON_CLIENT_SECRET"] else [])
  ++ (if r.clientSecret = "" then [clientSecretMissingDiag] else [])
  ++ (if data.email.isUnknown then [unknownDiag "user-email" "User Email" "MASTODON_USER_EMAIL"] else [])
  ++ (if data.password.isUnknown then [unknownDiag "user-password" "User Password" "MASTODON_USER_PASSWORD"] else [])
  ++ (if data.accessToken.isUnknown then [unknownDiag "user-access-token" "User Password" "MASTODON_USER_PASSWORD"] else [])
  ++ (if r.accessToken = "" ∧ (r.userEmail = "" ∨ r.userPassword = "") then [credentialsMissingDiag] else [])

/-- `mastodon.Config`: what `mastodon.NewClient` is constructed from. -/
structure MastodonConfig where
  server : String
  clientID : String
  clientSecret : String
  accessToken : String
deriving DecidableEq, Repr

/-- Result of the single `GetAccountCurrentUser` call: the returned
account pointer (possibly nil) and the returned error (possibly nil). -/
structure FetchResult where
  acct : Option Account
  err : Option String
deriving DecidableEq, Repr

/-- Outcome of running `MastodonProvider.Configure`: either a Go runtime
panic (nil pointer dereference) or a normal return carrying the final
diagnostics and the client handed to adapters (`resp.DataSourceData` /
`resp.ResourceData`), when one was set. -/
inductive ConfigureOutcome where
  | panicked
  | returned (diags : List Diagnostic) (clientData : Option MastodonConfig)
deriving DecidableEq, Repr

/-- `MastodonProvider.Configure`, with the one remote call
(`c.GetAccountCurrentUser`) supplied as the oracle `fetch`.  After the
validation phase the source builds the client config (with or without the
access token), performs the fetch, adds an error diagnostic when the fetch
errs WITHOUT returning, and then dereferences the returned account pointer
(`user.Acct`) — a nil pointer there panics. -/
def MastodonProvider.Configure (data : MastodonProviderModel) (env : ProviderEnv)
    (fetch : MastodonConfig → FetchResult) : ConfigureOutcome :=
  let diags := validationDiags data env
  if diags ≠ [] then .returned diags none
  else
    let r := resolvedModel data env
    let config : MastodonConfig :=
      if r.accessToken ≠ "" then
        { server := r.host, clientID := r.clientID, clientSecret := r.clientSecret,
          accessToken := r.accessToken }
      else
        { server := r.host, clientID := r.clientID, clientSecret := r.clientSecret,
          accessToken := "" }
    let result := fetch config
    let fetchDiags :=
      match result.err with
      | some e =>
          [({ path := none,
              summary := "Mastodon GetAccountCurrentUser Failed, API is not usable.",
              detail := e } : Diagnostic)]
      | none => []
    match result.acct with
    | none => .panicked
    | some _ =>
      let logDiags :=
        if r.accessToken ≠ "" then []
        else if r.userEmail ≠ "" ∧ r.userPassword ≠ "" then []
        else [credentialsMissingDiag]
      let allDiags := fetchDiags ++ logDiags
      if allDiags ≠ [] then .returned allDiags none
      else .returned [] (some config)

/-- `AccountDataSourceModel`: username input plus five computed outputs. -/
structure AccountDataSourceModel where
  username : TFString
  id : TFString
  displayName : TFString
  note : TFString
  locked : TFBool
  bot : TFBool
deriving DecidableEq, Repr

/-- The `req.ProviderData` handed to an adapter Configure: Go nil, a
`*mastodon.Client`, or a value of some other dynamic type. -/
inductive ProviderData where
  | absent
  | client (c : MastodonConfig)
  | otherShape (typeName : String)
deriving DecidableEq, Repr

/-- `AccountDataSource.Configure`: nil provider data returns silently;
a client is stored; any other shape yields the defensive error. -/
def AccountDataSource.Configure (pd : ProviderData) :
    List Diagnostic × Option MastodonConfig :=
  match pd with
  | .absent => ([], none)
  | .client c => ([], some c)
  | .otherShape t =>
      ([{ path := none
          summary := "Unexpected Data Source Configure Type"
          detail := "Expected *mastodon.Client, got: " ++ t ++ ". Please report this issue to the provider developers." }], none)

/-- `PostResource.Configure`: same guard with the resource summary. -/
def PostResource.Configure (pd : ProviderData) :
    List Diagnostic × Option MastodonConfig :=
  match pd with
  | .absent => ([], none)
  | .client c => ([], some c)
  | .otherShape t =>
      ([{ path := none
          summary := "Unexpected Resource Configure Type"
          detail := "Expected *mastodon.Client, got: " ++ t ++ ". Please report this issue to the provider developers." }], none)

/-- `AccountDataSource.Read`, with `d.client.AccountLookup` supplied as the
oracle `lookup`.  The second component is the state written by
`resp.State.Set`: `none` means Read returned before writing, leaving the
declarative state untouched. -/
def AccountDataSource.Read (config : AccountDataSourceModel)
    (lookup : String → Except String Account) :
    List Diagnostic × Option AccountDataSourceModel :=
  match lookup config.username.valueString with
  | .error e =>
      ([{ path := none
          summary := "Failed to lookup account"
          detail := "Failed to lookup account: " ++ e }], none)
  | .ok account =>
      ([], some { config with
                  id := .value account.id
                  displayName := .value account.displayName
                  note := .value account.note
                  locked := .value account.locked
                  bot := .value account.bot })

/-- `PostResourceModel`: the post resource state/plan model. -/
structure PostResourceModel where
  id : TFString
  createdAt : TFString
  account : TFString
  content : TFString
  visibility : TFString
  sensitive : TFBool
  preserveOnDestroy : TFBool
deriving DecidableEq, Repr

/-- The fields of a `mastodon.Status` record that this provider reads;
`createdAt` stands for `post.CreatedAt.String()` and `accountID` for
`string(post.Account.ID)`. -/
structure Status where
  id : String
  createdAt : String
  accountID : String
  content : String
  visibility : String
  sensitive : Bool
deriving DecidableEq, Repr

/-- `mastodon.Toot`: the request body built by Create and Update. -/
structure Toot where
  status : String
  visibility : String
  sensitive : Bool
deriving DecidableEq, Repr

/-- The toot built from a plan:
`mastodon.Toot{Status: ..., Visibility: ..., Sensitive: ...}`. -/
def tootOfPlan (data : PostResourceModel) : Toot :=
  { status := data.content.valueString
    visibility := data.visibility.valueString
    sensitive := data.sensitive.valueBool }

/-- The model update shared verbatim by Create, Read and Update: all
computed fields are overwritten from the returned record and the content
is sanitized; `preserveOnDestroy` is not touched here. -/
def applyStatus (data : PostResourceModel) (post : Status) : PostResourceModel :=
  { data with
    id := .value post.id
    createdAt := .value post.createdAt
    account := .value post.accountID
    content := .value (sanitize post.content)
    visibility := .value post.visibility
    sensitive := .value post.sensitive }

/-- `PostResource.Create`, with `r.client.PostStatus` as the oracle.
The second component is the state written on success (`none`: creation
failed, the resource stays absent). -/
def PostResource.Create (plan : PostResourceModel)
    (postStatus : Toot → Except String Status) :
    List Diagnostic × Option PostResourceModel :=
  match postStatus (tootOfPlan plan) with
  | .error e =>
      ([{ path := none
          summary := "Client Error"
          detail := "Unable to create post, got error: " ++ e }], none)
  | .ok post => ([], some (applyStatus plan post))

/-- `PostResource.Read`, with `r.client.GetStatus` as the oracle, called
on the stored identifier.  The second component is the final declarative
state: on an error return the prior state is left as it was, and the
source never calls `resp.State.RemoveResource`, so the state is never
cleared (`none` is unreachable). -/
def PostResource.Read (prior : PostResourceModel)
    (getStatus : String → Except String Status) :
    List Diagnostic × Option PostResourceModel :=
  match getStatus prior.id.valueString with
  | .error e =>
      ([{ path := none
          summary := "Client Error"
          detail := "Unable to read post, got error: " ++ e }], some prior)
  | .ok post =>
      let data := applyStatus prior post
      let data :=
        if data.preserveOnDestroy.isNull then
          { data with preserveOnDestroy := .value false }
        else data
      ([], some data)

/-- `PostResource.Update`, with `r.client.UpdateStatus` as the oracle
(taking the toot and the existing identifier).  The error detail says
"Unable to read post" in the source. -/
def PostResource.Update (plan : PostResourceModel)
    (updateStatus : Toot → String → Except String Status) :
    List Diagnostic × Option PostResourceModel :=
  match updateStatus (tootOfPlan plan) plan.id.valueString with
  | .error e =>
      ([{ path := none
          summary := "Client Error"
          detail := "Unable to read post, got error: " ++ e }], none)
  | .ok post => ([], some (applyStatus plan post))

/-- `PostResource.Delete`, with `r.client.DeleteStatus` as the oracle.
The second component counts how many times the remote delete call is
made on this code path. -/
def PostResource.Delete (prior : PostResourceModel)
    (deleteStatus : String → Except String Unit) :
    List Diagnostic × Nat :=
  if prior.preserveOnDestroy.valueBool then ([], 0)
  else
    match deleteStatus prior.id.valueString with
    | .error e =>
        ([{ path := none
            summary := "Client Error"
            detail := "Unable to delete post, got error: " ++ e }], 1)
    | .ok _ => ([], 1)

/-- An echo model of the remote server at creation: the returned status
carries the submitted content, visibility and sensitive flag unchanged,
with a server-assigned id, timestamp and account. -/
def serverEcho (toot : Toot) (newId createdAt acctId : String) : Status :=
  { id := newId
    createdAt := createdAt
    accountID := acctId
    content := toot.status
    visibility := toot.visibility
    sensitive := toot.sensitive }

/-- A sample post state used to instantiate theorems with hypotheses. -/
def samplePost (preserve : TFBool) : PostResourceModel :=
  { id := .value "113"
    createdAt := .value "2024-01-01 00:00:00 +0000 UTC"
    account := .value "42"
    content := .value "hello"
    visibility := .value "public"
    sensitive := .value false
    preserveOnDestroy := preserve }

/-- A sample remote account record. -/
def sampleAccount : Account :=
  { id := "42"
    displayName := "Ted"
    note := "a note"
    acct := "tedivm@hachyderm.io"
    locked := false
    bot := false }

/-- A sample account data source configuration: username set, computed
fields still null. -/
def sampleAccountConfig : AccountDataSourceModel :=
  { username := .value "user@host"
    id := .null
    displayName := .null
    note := .null
    locked := .null
    bot := .null }

/-- Claim C10: the identity function returns exactly the concatenation
"@username@server", with no other transformation. -/
theorem identity_run_concat (username server : String) :
    IdentityFunction.Run username server = "@" ++ username ++ "@" ++ server := rfl

/-- Claim C4: Delete with preserve_on_destroy true performs zero remote
delete calls and reports no error; with preserve_on_destroy false it
performs exactly one remote delete call and reports an error exactly when
that call fails. -/
theorem post_delete_preserve_semantics (prior : PostResourceModel)
    (deleteStatus : String → Except String Unit) :
    (prior.preserveOnDestroy.valueBool = true →
      PostResource.Delete prior deleteStatus = ([], 0))
    ∧ (prior.preserveOnDestroy.valueBool = false →
        (PostResource.Delete prior deleteStatus).2 = 1
        ∧ ((PostResource.Delete prior deleteStatus).1 ≠ [] ↔
            ∃ e, deleteStatus prior.id.valueString = .error e)) := by
  constructor
  · intro h
    simp [PostResource.Delete, h]
  · intro h
    cases hd : deleteStatus prior.id.valueString with
    | error e => simp [PostResource.Delete, h, hd]
    | ok u => simp [PostResource.Delete, h, hd]

theorem post_delete_preserve_semantics_witness :
    PostResource.Delete (samplePost (.value true)) (fun _ => .ok ()) = ([], 0)
    ∧ (PostResource.Delete (samplePost (.value false)) (fun _ => .ok ())).2 = 1 :=
  ⟨(post_delete_preserve_semantics (samplePost (.value true)) (fun _ => .ok ())).1 (by decide),
   ((post_delete_preserve_semantics (samplePost (.value false)) (fun _ => .ok ())).2 (by decide)).1⟩

/-- Claim C5: for every stored post state and every error returned by the
remote status fetch (a not-found response included), Read reports a read
error and the final state is the prior state unchanged — in particular it
is never removed. -/
theorem post_read_error_preserves_state (prior : PostResourceModel)
    (getStatus : String → Except String Status) (e : String)
    (h : getStatus prior.id.valueString = .error e) :
    PostResource.Read prior getStatus =
      ([{ path := none
          summary := "Client Error"
          detail := "Unable to read post, got error: " ++ e }], some prior)
    ∧ (PostResource.Read prior getStatus).2 ≠ none := by
  refine ⟨?_, ?_⟩ <;> simp [PostResource.Read, h]

theorem post_read_error_preserves_state_witness :
    PostResource.Read (samplePost (.value false)) (fun _ => .error "404 not found") =
      ([{ path := none
          summary := "Client Error"
          detail := "Unable to read post, got error: 404 not found" }],
       some (samplePost (.value false))) :=
  (post_read_error_preserves_state (samplePost (.value false))
    (fun _ => .error "404 not found") "404 not found" rfl).1

/-- Claim C8: account data source Read surfaces a descriptive failure and
leaves the state untouched on remote error, and on success overwrites all
five computed fields unconditionally from the remote record while keeping
the supplied username unchanged. -/
theorem account_read_frame (config : AccountDataSourceModel)
    (lookup : String → Except String Account) :
    (∀ e, lookup config.username.valueString = .error e →
      AccountDataSource.Read config lookup =
        ([{ path := none
            summary := "Failed to lookup account"
            detail := "Failed to lookup account: " ++ e }], none))
    ∧ (∀ a, lookup config.username.valueString = .ok a →
        AccountDataSource.Read config lookup =
          ([], some { username := config.username
                      id := .value a.id
                      displayName := .value a.displayName
                      note := .value a.note
                      locked := .value a.locked
                      bot := .value a.bot })) := by
  constructor
  · intro e he
    simp [AccountDataSource.Read, he]
  · intro a ha
    simp [AccountDataSource.Read, ha]

theorem account_read_frame_witness :
    AccountDataSource.Read sampleAccountConfig (fun _ => .ok sampleAccount) =
      ([], some { username := .value "user@host"
                  id := .value "42"
                  displayName := .value "Ted"
                  note := .value "a note"
                  locked := .value false
                  bot := .value false }) :=
  (account_read_frame sampleAccountConfig (fun _ => .ok sampleAccount)).2 sampleAccount rfl

/-- A remote account record whose locked flag is false but whose bot flag
is true: the data source copies `bot` from the record's bot field, not
from its locked field. -/
def lockedFalseBotTrueAccount : Account :=
  { id := "7"
    displayName := "Bot"
    note := ""
    acct := "bot@host"
    locked := false
    bot := true }

theorem account_bot_counterexample :
    lockedFalseBotTrueAccount.locked = false
    ∧ ((AccountDataSource.Read sampleAccountConfig
          (fun _ => .ok lockedFalseBotTrueAccount)).2.map
        (fun s => TFBool.render s.bot)) = some "true"
    ∧ (some "true" : Option String) ≠ some "false" := by
  refine ⟨rfl, ?_, by decide⟩
  simp [AccountDataSource.Read, lockedFalseBotTrueAccount, TFBool.render]

/-- Claim C6 (amended): the bot output mirrors the remote record's bot
field; for a record with locked = false AND bot = false the resulting bot
attribute renders as the string "false". -/
theorem account_bot_from_record (config : AccountDataSourceModel) (a : Account)
    (hl : a.locked = false) (hb : a.bot = false) :
    ((AccountDataSource.Read config (fun _ => .ok a)).2.map
      (fun s => TFBool.render s.bot)) = some "false" := by
  simp [AccountDataSource.Read, hb, TFBool.render]

theorem account_bot_from_record_witness :
    ((AccountDataSource.Read sampleAccountConfig (fun _ => .ok sampleAccount)).2.map
      (fun s => TFBool.render s.bot)) = some "false" :=
  account_bot_from_record sampleAccountConfig sampleAccount rfl rfl

theorem adapter_configure_nil_counterexample :
    AccountDataSource.Configure .absent = ([], none)
    ∧ PostResource.Configure .absent = ([], none) := ⟨rfl, rfl⟩

/-- Claim C7 (amended): an unexpected-shape client reference makes both
adapters report the provider-bug-class error and store no client; a valid
client is stored without diagnostics; an absent (nil) reference is a
silent no-op with no diagnostic. -/
theorem adapter_configure_guard (t : String) (c : MastodonConfig) :
    AccountDataSource.Configure (.otherShape t) =
      ([{ path := none
          summary := "Unexpected Data Source Configure Type"
          detail := "Expected *mastodon.Client, got: " ++ t ++ ". Please report this issue to the provider developers." }], none)
    ∧ PostResource.Configure (.otherShape t) =
      ([{ path := none
          summary := "Unexpected Resource Configure Type"
          detail := "Expected *mastodon.Client, got: " ++ t ++ ". Please report this issue to the provider developers." }], none)
    ∧ AccountDataSource.Configure (.client c) = ([], some c)
    ∧ PostResource.Configure (.client c) = ([], some c)
    ∧ AccountDataSource.Configure .absent = ([], none)
    ∧ PostResource.Configure .absent = ([], none) :=
  ⟨rfl, rfl, rfl, rfl, rfl, rfl⟩

/-- A sample provider configuration mixing configured and null fields. -/
def mixedProviderModel : MastodonProviderModel :=
  { host := .value "h1"
    clientID := .null
    clientSecret := .value "cs1"
    email := .null
    password := .value "pw1"
    accessToken := .null }

/-- A sample environment with every variable set. -/
def fullEnv : ProviderEnv :=
  { host := "envhost"
    clientID := "envcid"
    clientSecret := "envcs"
    userEmail := "envemail"
    userPassword := "envpw"
    accessToken := "envtok" }

/-- Claim C9: for each of the six configuration fields the resolved value
is the configuration value when it is non-null and the corresponding
environment variable otherwise. -/
theorem resolved_precedence (data : MastodonProviderModel) (env : ProviderEnv) :
    (data.host.isNull = false →
      (resolvedModel data env).host = data.host.valueString)
    ∧ (data.host.isNull = true → (resolvedModel data env).host = env.host)
    ∧ (data.clientID.isNull = false →
        (resolvedModel data env).clientID = data.clientID.valueString)
    ∧ (data.clientID.isNull = true →
        (resolvedModel data env).clientID = env.clientID)
    ∧ (data.clientSecret.isNull = false →
        (resolvedModel data env).clientSecret = data.clientSecret.valueString)
    ∧ (data.clientSecret.isNull = true →
        (resolvedModel data env).clientSecret = env.clientSecret)
    ∧ (data.email.isNull = false →
        (resolvedModel data env).userEmail = data.email.valueString)
    ∧ (data.email.isNull = true →
        (resolvedModel data env).userEmail = env.userEmail)
    ∧ (data.password.isNull = false →
        (resolvedModel data env).userPassword = data.password.valueString)
    ∧ (data.password.isNull = true →
        (resolvedModel data env).userPassword = env.userPassword)
    ∧ (data.accessToken.isNull = false →
        (resolvedModel data env).accessToken = data.accessToken.valueString)
    ∧ (data.accessToken.isNull = true →
        (resolvedModel data env).accessToken = env.accessToken) := by
  refine ⟨?_, ?_, ?_, ?_, ?_, ?_, ?_, ?_, ?_, ?_, ?_, ?_⟩ <;>
    intro h <;> simp [resolvedModel, resolveField, h]

theorem resolved_precedence_witness :
    (resolvedModel mixedProviderModel fullEnv).host = "h1"
    ∧ (resolvedModel mixedProviderModel fullEnv).clientID = "envcid"
    ∧ (resolvedModel mixedProviderModel fullEnv).userPassword = "pw1"
    ∧ (resolvedModel mixedProviderModel fullEnv).accessToken = "envtok" := by
  have h := resolved_precedence mixedProviderModel fullEnv
  exact ⟨h.1 rfl, h.2.2.2.1 rfl, h.2.2.2.2.2.2.2.2.1 rfl,
         h.2.2.2.2.2.2.2.2.2.2.2 rfl⟩

/-- Claim C3: the same HTML-stripping sanitization is applied to the
returned content in Create, Read and Update; it is idempotent; and under
the echo model of the remote server, creating with content C stores
sanitize(C), reading the stored post back yields sanitize(C), and
updating to content C2 then reading yields sanitize(C2). -/
theorem post_sanitize_roundtrip :
    (∀ x, sanitize (sanitize x) = sanitize x)
    ∧ (∀ plan st,
        ((PostResource.Create plan (fun _ => .ok st)).2.map (fun s => s.content)) =
          some (.value (sanitize st.content)))
    ∧ (∀ prior st,
        ((PostResource.Read prior (fun _ => .ok st)).2.map (fun s => s.content)) =
          some (.value (sanitize st.content)))
    ∧ (∀ plan st,
        ((PostResource.Update plan (fun _ _ => .ok st)).2.map (fun s => s.content)) =
          some (.value (sanitize st.content)))
    ∧ (∀ plan newId cAt acctId,
        ((PostResource.Create plan
            (fun toot => .ok (serverEcho toot newId cAt acctId))).2.map
          (fun s => s.content)) =
          some (.value (sanitize plan.content.valueString)))
    ∧ (∀ prior plan newId cAt acctId,
        ((PostResource.Read prior
            (fun _ => .ok (serverEcho (tootOfPlan plan) newId cAt acctId))).2.map
          (fun s => s.content)) =
          some (.value (sanitize plan.content.valueString)))
    ∧ (∀ plan newId cAt acctId,
        ((PostResource.Update plan
            (fun toot _ => .ok (serverEcho toot newId cAt acctId))).2.map
          (fun s => s.content)) =
          some (.value (sanitize plan.content.valueString))) := by
  refine ⟨sanitize_idempotent, ?_, ?_, ?_, ?_, ?_, ?_⟩
  · intro plan st
    simp [PostResource.Create, applyStatus]
  · intro prior st
    simp only [PostResource.Read, applyStatus, Option.map_some]
    split <;> rfl
  · intro plan st
    simp [PostResource.Update, applyStatus]
  · intro plan newId cAt acctId
    simp [PostResource.Create, applyStatus, serverEcho, tootOfPlan]
  · intro prior plan newId cAt acctId
    simp only [PostResource.Read, applyStatus, serverEcho, tootOfPlan, Option.map_some]
    split <;> rfl
  · intro plan newId cAt acctId
    simp [PostResource.Update, applyStatus, serverEcho, tootOfPlan]

theorem validation_ok_iff (data : MastodonProviderModel) (env : ProviderEnv) :
    validationDiags data env = [] ↔
      data.host.isUnknown = false ∧ data.clientID.isUnknown = false ∧
      data.clientSecret.isUnknown = false ∧ data.email.isUnknown = false ∧
      data.password.isUnknown = false ∧ data.accessToken.isUnknown = false ∧
      (resolvedModel data env).host ≠ "" ∧ (resolvedModel data env).clientID ≠ "" ∧
      (resolvedModel data env).clientSecret ≠ "" ∧
      ¬((resolvedModel data env).accessToken = "" ∧
        ((resolvedModel data env).userEmail = "" ∨
         (resolvedModel data env).userPassword = "")) := by
  simp only [validationDiags, List.append_eq_nil, ite_eq_right_iff,
    List.cons_ne_nil, imp_false, Bool.not_eq_true]
  tauto

theorem configure_eval_nil_acct (data : MastodonProviderModel) (env : ProviderEnv)
    (errOpt : Option String) (hv : validationDiags data env = []) :
    MastodonProvider.Configure data env (fun _ => ⟨none, errOpt⟩) = .panicked := by
  cases errOpt <;> simp [MastodonProvider.Configure, hv]

theorem configure_eval_fetch_error (data : MastodonProviderModel) (env : ProviderEnv)
    (a : Account) (e : String) (hv : validationDiags data env = []) :
    MastodonProvider.Configure data env (fun _ => ⟨some a, some e⟩) =
      .returned [{ path := none
                   summary := "Mastodon GetAccountCurrentUser Failed, API is not usable."
                   detail := e }] none := by
  obtain ⟨-, -, -, -, -, -, -, -, -, hcred⟩ := (validation_ok_iff data env).mp hv
  push_neg at hcred
  by_cases ht : (resolvedModel data env).accessToken = ""
  · obtain ⟨hem, hpw⟩ := hcred ht
    simp [MastodonProvider.Configure, hv, ht, hem, hpw]
  · simp [MastodonProvider.Configure, hv, ht]

/-- A provider configuration that passes validation: host, client id,
client secret and an access token are all configured. -/
def validProviderModel : MastodonProviderModel :=
  { host := .value "mastodon.example"
    clientID := .value "cid"
    clientSecret := .value "sec"
    email := .null
    password := .null
    accessToken := .value "tok" }

/-- An environment with every variable unset (`os.Getenv` yields ""). -/
def emptyEnv : ProviderEnv :=
  { host := ""
    clientID := ""
    clientSecret := ""
    userEmail := ""
    userPassword := ""
    accessToken := "" }

/-- Claim C2: when the credential-validating fetch reports an error,
Configure does not return before dereferencing the returned account record
(`user.Acct`), so on that branch it avoids a nil-pointer panic exactly
when the fetch returned a non-null account record; with a non-null record
it returns carrying the fetch-failure diagnostic. -/
theorem configure_reads_acct_on_fetch_error (data : MastodonProviderModel)
    (env : ProviderEnv) (fr : FetchResult)
    (hv : validationDiags data env = []) (he : fr.err.isSome = true) :
    (MastodonProvider.Configure data env (fun _ => fr) ≠ .panicked ↔ fr.acct ≠ none)
    ∧ (∀ a e, fr = ⟨some a, some e⟩ →
        MastodonProvider.Configure data env (fun _ => fr) =
          .returned [{ path := none
                       summary := "Mastodon GetAccountCurrentUser Failed, API is not usable."
                       detail := e }] none) := by
  obtain ⟨e, he'⟩ := Option.isSome_iff_exists.mp he
  constructor
  · cases hacct : fr.acct with
    | none =>
      have hfr : fr = ⟨none, some e⟩ := by
        cases fr
        simp only at hacct he'
        simp [hacct, he']
      rw [hfr, configure_eval_nil_acct data env (some e) hv]
      simp
    | some a =>
      have hfr : fr = ⟨some a, some e⟩ := by
        cases fr
        simp only at hacct he'
        simp [hacct, he']
      rw [hfr, configure_eval_fetch_error data env a e hv]
      simp
  · intro a e2 hfr
    rw [hfr, configure_eval_fetch_error data env a e2 hv]

theorem configure_reads_acct_on_fetch_error_witness :
    MastodonProvider.Configure validProviderModel emptyEnv
      (fun _ => ⟨none, some "connection refused"⟩) = .panicked := by
  have h := (configure_reads_acct_on_fetch_error validProviderModel emptyEnv
    ⟨none, some "connection refused"⟩ (by decide) (by decide)).1
  by_contra hne
  exact h.mp hne rfl

/-- A provider configuration whose resolved host is empty while the other
required fields are present. -/
def hostMissingModel : MastodonProviderModel :=
  { host := .null
    clientID := .value "cid"
    clientSecret := .value "sec"
    email := .null
    password := .null
    accessToken := .value "tok" }

theorem configure_host_attribution_counterexample :
    validationDiags hostMissingModel emptyEnv = [hostMissingDiag]
    ∧ (∀ d ∈ validationDiags hostMissingModel emptyEnv, d.path ≠ some "host")
    ∧ hostMissingDiag.path = some "user-access-token"
    ∧ MastodonProvider.Configure hostMissingModel emptyEnv
        (fun _ => ⟨some sampleAccount, none⟩) = .returned [hostMissingDiag] none := by
  refine ⟨by decide, by decide, by decide, by decide⟩

/-- Claim C1 (amended): with no unknown configuration values, validation
fails exactly when the resolved host, client id or client secret is empty
or neither credential resolves; each missing field contributes its own
descriptive diagnostic and all of them are collected in one pass (though
the empty-field diagnostics are all attributed to the "user-access-token"
path rather than the field's own path); when everything resolves and the
validating fetch succeeds, Configure returns no diagnostics and hands the
client built from the resolved values to the adapters. -/
theorem configure_validation_per_field (data : MastodonProviderModel)
    (env : ProviderEnv) (acct : Account)
    (hU : data.host.isUnknown = false ∧ data.clientID.isUnknown = false ∧
          data.clientSecret.isUnknown = false ∧ data.email.isUnknown = false ∧
          data.password.isUnknown = false ∧ data.accessToken.isUnknown = false) :
    ((resolvedModel data env).host = "" →
      hostMissingDiag ∈ validationDiags data env)
    ∧ ((resolvedModel data env).clientID = "" →
        clientIDMissingDiag ∈ validationDiags data env)
    ∧ ((resolvedModel data env).clientSecret = "" →
        clientSecretMissingDiag ∈ validationDiags data env)
    ∧ ((resolvedModel data env).accessToken = "" ∧
        ((resolvedModel data env).userEmail = "" ∨
         (resolvedModel data env).userPassword = "") →
        credentialsMissingDiag ∈ validationDiags data env)
    ∧ (validationDiags data env = [] ↔
        ((resolvedModel data env).host ≠ "" ∧
         (resolvedModel data env).clientID ≠ "" ∧
         (resolvedModel data env).clientSecret ≠ "" ∧
         ((resolvedModel data env).accessToken ≠ "" ∨
          ((resolvedModel data env).userEmail ≠ "" ∧
           (resolvedModel data env).userPassword ≠ ""))))
    ∧ (validationDiags data env ≠ [] →
        MastodonProvider.Configure data env (fun _ => ⟨some acct, none⟩) =
          .returned (validationDiags data env) none)
    ∧ (validationDiags data env = [] →
        MastodonProvider.Configure data env (fun _ => ⟨some acct, none⟩) =
          .returned []
            (some { server := (resolvedModel data env).host
                    clientID := (resolvedModel data env).clientID
                    clientSecret := (resolvedModel data env).clientSecret
                    accessToken := (resolvedModel data env).accessToken })) := by
  obtain ⟨hu1, hu2, hu3, hu4, hu5, hu6⟩ := hU
  refine ⟨?_, ?_, ?_, ?_, ?_, ?_, ?_⟩
  · intro h
    simp only [validationDiags, List.mem_append, h]
    simp
  · intro h
    simp only [validationDiags, List.mem_append, h]
    simp
  · intro h
    simp only [validationDiags, List.mem_append, h]
    simp
  · intro h
    simp only [validationDiags, List.mem_append]
    simp [h]
  · constructor
    · intro hnil
      obtain ⟨-, -, -, -, -, -, hh, hcid, hcs, hcred⟩ :=
        (validation_ok_iff data env).mp hnil
      push_neg at hcred
      refine ⟨hh, hcid, hcs, ?_⟩
      by_cases ht : (resolvedModel data env).accessToken = ""
      · exact Or.inr (hcred ht)
      · exact Or.inl ht
    · rintro ⟨hh, hcid, hcs, hcredor⟩
      apply (validation_ok_iff data env).mpr
      refine ⟨hu1, hu2, hu3, hu4, hu5, hu6, hh, hcid, hcs, ?_⟩
      rintro ⟨ht, hor⟩
      rcases hcredor with h1 | h2
      · exact h1 ht
      · rcases hor with h3 | h4
        · exact h2.1 h3
        · exact h2.2 h4
  · intro hne
    simp [MastodonProvider.Configure, hne]
  · intro hnil
    obtain ⟨-, -, -, -, -, -, -, -, -, hcred⟩ :=
      (validation_ok_iff data env).mp hnil
    push_neg at hcred
    by_cases ht : (resolvedModel data env).accessToken = ""
    · obtain ⟨hem, hpw⟩ := hcred ht
      simp [MastodonProvider.Configure, hnil, ht, hem, hpw]
    · simp [MastodonProvider.Configure, hnil, ht]

theorem configure_validation_per_field_witness :
    MastodonProvider.Configure validProviderModel emptyEnv
      (fun _ => ⟨some sampleAccount, none⟩) =
      .returned []
        (some { server := "mastodon.example"
                clientID := "cid"
                clientSecret := "sec"
                accessToken := "tok" })
    ∧ hostMissingDiag ∈ validationDiags hostMissingModel emptyEnv := by
  have h1 := configure_validation_per_field validProviderModel emptyEnv
    sampleAccount (by decide)
  have h2 := configure_validation_per_field hostMissingModel emptyEnv
    sampleAccount (by decide)
  exact ⟨h1.2.2.2.2.2.2 (by decide), h2.1 (by decide)⟩

end TPMastodon
